import Mathlib

/-!
# bgclipper — verification of the clipboard transparency pipeline

Shallow embedding of the `bgclipper` repository's domain and application
layers, together with proofs of the spec claims about them.

Source files embedded:
* `src/domain/color.rs` — `Color`, `Color::matches`
* `src/domain/image_processor.rs` — `make_transparent`
* `src/domain/port.rs` — `ImageData`, `ClipboardPort`, `ConfigPort`
* `src/application/clipboard_service.rs` — `ProcessResult`,
  `ClipboardService::new`, `ClipboardService::process_clipboard`

Machine integers: the Rust code uses `u8` for color channels / pixel bytes
and `u64` for the clipboard change counter.  No arithmetic other than
equality tests and storing the constant `0` is ever performed on them in
the embedded code, so they are modelled as `Nat` (no overflow can occur).
-/

set_option maxHeartbeats 1600000

namespace Bgclipper

/-- `Color` from `src/domain/color.rs`: three 8-bit channels. -/
structure Color where
  r : Nat
  g : Nat
  b : Nat
deriving DecidableEq, Repr

/-- `Color::new` from `src/domain/color.rs`. -/
def Color.new (r g b : Nat) : Color := ⟨r, g, b⟩

/-- `Color::matches` from `src/domain/color.rs`: exact structural equality
(Rust `self == other` via derived `PartialEq`). -/
def Color.matches (c other : Color) : Bool := decide (c = other)

/-- One step of the `chunks_exact_mut(4)` loop of `make_transparent`
(`src/domain/image_processor.rs`, lines 39–47): for each exact 4-byte
chunk, if the RGB bytes match the target the alpha byte is set to `0` and
the counter is incremented; a trailing remainder of fewer than 4 bytes is
left untouched by `chunks_exact_mut` (unreachable under the length
assertion, but modelled faithfully). -/
def scanChunks (target : Color) : List Nat → List Nat × Nat
  | r :: g :: b :: a :: rest =>
    let res := scanChunks target rest
    if (Color.new r g b).matches target then
      (r :: g :: b :: 0 :: res.1, res.2 + 1)
    else
      (r :: g :: b :: a :: res.1, res.2)
  | l => (l, 0)

/-- `make_transparent` from `src/domain/image_processor.rs`.  The Rust
function mutates the buffer in place and returns the match count; it
panics (`assert!`) when the buffer length is not a multiple of 4.  The
embedding returns `some (newBuffer, count)` on the normal path and `none`
for the panic, in which case the buffer is not modified at all. -/
def make_transparent (pixels : List Nat) (target : Color) : Option (List Nat × Nat) :=
  if pixels.length % 4 = 0 then some (scanChunks target pixels) else none

/-- `ImageData` from `src/domain/port.rs`. -/
structure ImageData where
  pixels : List Nat
  width : Nat
  height : Nat
deriving DecidableEq, Repr

/-- `ProcessResult` from `src/application/clipboard_service.rs`. -/
inductive ProcessResult
  | Processed
  | NoImage
  | Skipped
deriving DecidableEq, Repr

/-- Outcome of one `process_clipboard` call: the Rust `Ok`, `Err`, or a
panic raised by `make_transparent`'s length assertion (the spec's
`ContractViolation`). -/
inductive RunResult
  | ok (r : ProcessResult)
  | err (msg : String)
  | violation (msg : String)
deriving DecidableEq, Repr

/-- Instrumentation: which collaborator calls `process_clipboard` issued,
in order.  `setImage` records the image that was passed to the provider. -/
inductive PortCall
  | changeCount
  | getImage
  | setImage (image : ImageData)
  | loadTargetColor
deriving DecidableEq, Repr

/-- The collaborator interface of `ClipboardService`: the `ClipboardPort`
operations (`change_count`, `get_image`, `set_image`) and the one
`ConfigPort` operation the service calls (`load_target_color`), from
`src/domain/port.rs`.  `σ` is the combined state of the two collaborators;
each call either fails with an error string (the Rust `Self::Error`,
rendered through `Display`) or returns a value plus the successor state. -/
structure Ports (σ : Type) where
  change_count : σ → Except String (Nat × σ)
  get_image : σ → Except String (Option ImageData × σ)
  set_image : ImageData → σ → Except String σ
  load_target_color : σ → Except String (Color × σ)

/-- Result of one `process_clipboard` call: the returned value, the
service's `last_change_count` cell afterwards, the collaborator state
afterwards, and the trace of collaborator calls that were attempted. -/
structure StepOut (σ : Type) where
  result : RunResult
  fp : Nat
  state : σ
  calls : List PortCall
deriving DecidableEq, Repr

/-- The initial value of the `last_change_count` cell set by
`ClipboardService::new` (`src/application/clipboard_service.rs`, line 51). -/
def initial_last_change_count : Nat := 0

/-- `ClipboardService::process_clipboard`
(`src/application/clipboard_service.rs`, lines 70–152), embedded with the
service's `last_change_count` cell passed explicitly as `fp`.

Control flow, matching the source line by line:
1. read `change_count`; on failure return the mapped error;
2. if it equals `last_change_count`, return `Skipped`;
3. `get_image`; on failure return the mapped error; on `None` store the
   current counter and return `NoImage`;
4. `load_target_color`; on failure return the mapped error;
5. `make_transparent` on the pixel buffer (panic when the length is not a
   multiple of 4);
6. if the returned count is `0`, store the current counter and return
   `Processed` without writing;
7. otherwise `set_image` with the processed buffer (same width/height),
   re-read `change_count`, store it, and return `Processed`. -/
def process_clipboard {σ : Type} (P : Ports σ) (fp : Nat) (s : σ) : StepOut σ :=
  match P.change_count s with
  | .error e => ⟨.err ("failed to read change count: " ++ e), fp, s, [.changeCount]⟩
  | .ok (current_count, s1) =>
    if current_count = fp then
      ⟨.ok .Skipped, fp, s1, [.changeCount]⟩
    else
      match P.get_image s1 with
      | .error e =>
        ⟨.err ("failed to read clipboard: " ++ e), fp, s1, [.changeCount, .getImage]⟩
      | .ok (none, s2) =>
        ⟨.ok .NoImage, current_count, s2, [.changeCount, .getImage]⟩
      | .ok (some image, s2) =>
        match P.load_target_color s2 with
        | .error e =>
          ⟨.err ("failed to load config: " ++ e), fp, s2,
            [.changeCount, .getImage, .loadTargetColor]⟩
        | .ok (target_color, s3) =>
          match make_transparent image.pixels target_color with
          | none =>
            ⟨.violation ("pixel buffer length must be a multiple of 4, got " ++
                toString image.pixels.length), fp, s3,
              [.changeCount, .getImage, .loadTargetColor]⟩
          | some (newPixels, changed) =>
            if changed = 0 then
              ⟨.ok .Processed, current_count, s3,
                [.changeCount, .getImage, .loadTargetColor]⟩
            else
              match P.set_image { image with pixels := newPixels } s3 with
              | .error e =>
                ⟨.err ("failed to write clipboard: " ++ e), fp, s3,
                  [.changeCount, .getImage, .loadTargetColor,
                    .setImage { image with pixels := newPixels }]⟩
              | .ok s4 =>
                match P.change_count s4 with
                | .error e =>
                  ⟨.err ("failed to read change count after write: " ++ e), fp, s4,
                    [.changeCount, .getImage, .loadTargetColor,
                      .setImage { image with pixels := newPixels }, .changeCount]⟩
                | .ok (new_count, s5) =>
                  ⟨.ok .Processed, new_count, s5,
                    [.changeCount, .getImage, .loadTargetColor,
                      .setImage { image with pixels := newPixels }, .changeCount]⟩

/-- State of the canonical counter-strategy clipboard provider (the shape
of the integration mock in `src/application/clipboard_service.rs`, tests
module): a change counter, an optional stored image, and the configured
target color. -/
structure MProv where
  counter : Nat
  image : Option ImageData
  color : Color
deriving DecidableEq, Repr

/-- The canonical provider over `MProv`, parametrised by how `set_image`
bumps the counter: `change_count` reads the counter without changing
state, `get_image` reads the stored image, `set_image` stores the image
and bumps the counter, `load_target_color` reads the configured color.
With `bump = Nat.succ` this is exactly the `MockClipboard`/`MockConfig`
pair of the source's test module. -/
def mports (bump : Nat → Nat) : Ports MProv where
  change_count s := .ok (s.counter, s)
  get_image s := .ok (s.image, s)
  set_image img s := .ok { s with image := some img, counter := bump s.counter }
  load_target_color s := .ok (s.color, s)

/-- A provider whose every call fails, for exercising the error paths. -/
def failPorts : Ports Unit where
  change_count _ := .error "boom"
  get_image _ := .error "boom"
  set_image _ _ := .error "boom"
  load_target_color _ := .error "boom"

/-- Spec-side predicate (claim wording): pixel `k` of the buffer matches
the target color when bytes `4k`, `4k+1`, `4k+2` equal the target's `r`,
`g`, `b` channels. -/
def pixelMatchesAt (pixels : List Nat) (k : Nat) (target : Color) : Bool :=
  pixels.getD (4 * k) 0 = target.r ∧ pixels.getD (4 * k + 1) 0 = target.g ∧
    pixels.getD (4 * k + 2) 0 = target.b

/-- Spec-side count (claim wording): the number of pixel indices
`k < length / 4` whose RGB bytes match the target color. -/
def matchCount (pixels : List Nat) (target : Color) : Nat :=
  (List.range (pixels.length / 4)).countP (fun k => pixelMatchesAt pixels k target)

end Bgclipper

namespace Bgclipper

/-! ## Scanner lemmas (`make_transparent`) -/

theorem matches_iff (r g b : Nat) (t : Color) :
    (Color.new r g b).matches t = true ↔ (r = t.r ∧ g = t.g ∧ b = t.b) := by
  cases t
  simp [Color.matches, Color.new, Color.mk.injEq]

theorem scanChunks_cons4 (t : Color) (r g b a : Nat) (rest : List Nat) :
    scanChunks t (r :: g :: b :: a :: rest) =
      if (Color.new r g b).matches t then
        (r :: g :: b :: 0 :: (scanChunks t rest).1, (scanChunks t rest).2 + 1)
      else
        (r :: g :: b :: a :: (scanChunks t rest).1, (scanChunks t rest).2) := by
  simp [scanChunks]

theorem scanChunks_short (t : Color) (l : List Nat)
    (h : ∀ (r g b a : Nat) (rest : List Nat), l = r :: g :: b :: a :: rest → False) :
    scanChunks t l = (l, 0) := by
  match l with
  | [] => simp [scanChunks]
  | [a] => simp [scanChunks]
  | [a, b] => simp [scanChunks]
  | [a, b, c] => simp [scanChunks]
  | r :: g :: b :: a :: rest => exact absurd rfl (fun hh => h r g b a rest hh)

theorem scanChunks_length (t : Color) (l : List Nat) :
    (scanChunks t l).1.length = l.length := by
  induction l using scanChunks.induct t with
  | case1 r g b a rest hm ih => simp [scanChunks_cons4, hm, ih]
  | case2 r g b a rest hm ih => simp [scanChunks_cons4, hm, ih]
  | case3 l hne => simp [scanChunks_short t l hne]

theorem pixelMatchesAt_zero (r g b a : Nat) (rest : List Nat) (t : Color) :
    pixelMatchesAt (r :: g :: b :: a :: rest) 0 t = (Color.new r g b).matches t := by
  rw [Bool.eq_iff_iff]
  simp [pixelMatchesAt, matches_iff]

theorem pixelMatchesAt_cons4 (r g b a : Nat) (rest : List Nat) (k : Nat) (t : Color) :
    pixelMatchesAt (r :: g :: b :: a :: rest) (k + 1) t = pixelMatchesAt rest k t := by
  have h0 : 4 * (k + 1) = 4 * k + 1 + 1 + 1 + 1 := by ring
  have h1 : 4 * (k + 1) + 1 = 4 * k + 1 + 1 + 1 + 1 + 1 := by ring
  have h2 : 4 * (k + 1) + 2 = 4 * k + 2 + 1 + 1 + 1 + 1 := by ring
  simp only [pixelMatchesAt, h0, h1, h2, List.getD_cons_succ]

theorem scanChunks_getD_ne3 (t : Color) (l : List Nat) :
    ∀ i d, i % 4 ≠ 3 → (scanChunks t l).1.getD i d = l.getD i d := by
  induction l using scanChunks.induct t with
  | case1 r g b a rest hm ih =>
    intro i d hi
    rw [scanChunks_cons4, if_pos hm]
    rcases i with _ | _ | _ | _ | i
    · rfl
    · rfl
    · rfl
    · exact absurd rfl hi
    · show List.getD _ (i + 1 + 1 + 1 + 1) d = List.getD _ (i + 1 + 1 + 1 + 1) d
      simp only [List.getD_cons_succ]
      exact ih i d (by omega)
  | case2 r g b a rest hm ih =>
    intro i d hi
    rw [scanChunks_cons4, if_neg hm]
    rcases i with _ | _ | _ | _ | i
    · rfl
    · rfl
    · rfl
    · rfl
    · simp only [List.getD_cons_succ]
      exact ih i d (by omega)
  | case3 l hne => intro i d hi; rw [scanChunks_short t l hne]

theorem scanChunks_alpha (t : Color) (l : List Nat) :
    ∀ k d, 4 * k + 3 < l.length →
      (scanChunks t l).1.getD (4 * k + 3) d =
        if pixelMatchesAt l k t then 0 else l.getD (4 * k + 3) d := by
  induction l using scanChunks.induct t with
  | case1 r g b a rest hm ih =>
    intro k d hk
    rw [scanChunks_cons4, if_pos hm]
    rcases k with _ | k
    · simp [pixelMatchesAt_zero, hm]
    · rw [pixelMatchesAt_cons4]
      have h0 : 4 * (k + 1) + 3 = 4 * k + 3 + 1 + 1 + 1 + 1 := by ring
      simp only [h0, List.getD_cons_succ]
      exact ih k d (by simp at hk; omega)
  | case2 r g b a rest hm ih =>
    intro k d hk
    rw [scanChunks_cons4, if_neg hm]
    rcases k with _ | k
    · simp [pixelMatchesAt_zero, hm]
    · rw [pixelMatchesAt_cons4]
      have h0 : 4 * (k + 1) + 3 = 4 * k + 3 + 1 + 1 + 1 + 1 := by ring
      simp only [h0, List.getD_cons_succ]
      exact ih k d (by simp at hk; omega)
  | case3 l hne =>
    intro k d hk
    rw [scanChunks_short t l hne]
    match l, hne with
    | [], _ => simp only [List.length_nil, List.length_cons] at hk; omega
    | [a], _ => simp only [List.length_nil, List.length_cons] at hk; omega
    | [a, b], _ => simp only [List.length_nil, List.length_cons] at hk; omega
    | [a, b, c], _ => simp only [List.length_nil, List.length_cons] at hk; omega
    | r :: g :: b :: a :: rest, hne => exact absurd rfl (fun hh => hne r g b a rest hh)

theorem scanChunks_count (t : Color) (l : List Nat) :
    (scanChunks t l).2 = matchCount l t := by
  induction l using scanChunks.induct t with
  | case1 r g b a rest hm ih =>
    have hlen : (r :: g :: b :: a :: rest).length / 4 = rest.length / 4 + 1 := by
      simp [List.length_cons]
      omega
    have hfun : (fun k => pixelMatchesAt (r :: g :: b :: a :: rest) (k + 1) t) =
        (fun k => pixelMatchesAt rest k t) :=
      funext fun k => pixelMatchesAt_cons4 r g b a rest k t
    rw [scanChunks_cons4, if_pos hm]
    simp only [matchCount, hlen, List.range_succ_eq_map, List.countP_cons,
      List.countP_map, pixelMatchesAt_zero, hm]
    simp only [Function.comp_def, hfun]
    rw [ih]
    simp [matchCount]
  | case2 r g b a rest hm ih =>
    have hlen : (r :: g :: b :: a :: rest).length / 4 = rest.length / 4 + 1 := by
      simp [List.length_cons]
      omega
    have hfun : (fun k => pixelMatchesAt (r :: g :: b :: a :: rest) (k + 1) t) =
        (fun k => pixelMatchesAt rest k t) :=
      funext fun k => pixelMatchesAt_cons4 r g b a rest k t
    have hm' : (Color.new r g b).matches t = false := by simpa using hm
    rw [scanChunks_cons4, if_neg hm]
    simp only [matchCount, hlen, List.range_succ_eq_map, List.countP_cons,
      List.countP_map, pixelMatchesAt_zero, hm']
    simp only [Function.comp_def, hfun]
    rw [ih]
    simp [matchCount]
  | case3 l hne =>
    rw [scanChunks_short t l hne]
    have hl : l.length / 4 = 0 := by
      match l, hne with
      | [], _ => simp
      | [a], _ => simp
      | [a, b], _ => simp
      | [a, b, c], _ => simp
      | r :: g :: b :: a :: rest, hne => exact absurd rfl (fun hh => hne r g b a rest hh)
    simp [matchCount, hl]

theorem scanChunks_idem (t : Color) (l : List Nat) :
    scanChunks t (scanChunks t l).1 = scanChunks t l := by
  induction l using scanChunks.induct t with
  | case1 r g b a rest hm ih => simp [scanChunks_cons4, hm, ih]
  | case2 r g b a rest hm ih => simp [scanChunks_cons4, hm, ih]
  | case3 l hne => simp [scanChunks_short t l hne]

theorem make_transparent_eq (pixels : List Nat) (target : Color)
    (h : pixels.length % 4 = 0) :
    make_transparent pixels target =
      some ((scanChunks target pixels).1, (scanChunks target pixels).2) := by
  simp [make_transparent, h]

theorem make_transparent_idem (pixels out : List Nat) (target : Color) (count : Nat)
    (h : pixels.length % 4 = 0)
    (hrun : make_transparent pixels target = some (out, count)) :
    make_transparent out target = some (out, count) := by
  have h1 : scanChunks target pixels = (out, count) := by
    simpa [make_transparent, h] using hrun
  have hlen : out.length % 4 = 0 := by
    have hl := scanChunks_length target pixels
    rw [h1] at hl
    simp only at hl
    omega
  have h2 := scanChunks_idem target pixels
  rw [h1] at h2
  simp only at h2
  simp [make_transparent, hlen, h2]

end Bgclipper

namespace Bgclipper

/-! ## Claims about `make_transparent` -/

/-- Claim C2: for every RGBA buffer whose length is a multiple of 4 and
every target color, `make_transparent` sets byte `4k+3` to `0` for exactly
those pixel indices `k` whose bytes `4k`, `4k+1`, `4k+2` equal the
target's `r`, `g`, `b` channels, leaves every other byte unchanged, and
returns the number of matching pixels (on the empty buffer the count
`matchCount [] target` is `0`, and a matching pixel whose alpha is already
`0` is still counted, since `matchCount` only inspects the RGB bytes). -/
theorem make_transparent_correct (pixels : List Nat) (target : Color)
    (h : pixels.length % 4 = 0) :
    ∃ out count, make_transparent pixels target = some (out, count) ∧
      out.length = pixels.length ∧
      (∀ i d, i % 4 ≠ 3 → out.getD i d = pixels.getD i d) ∧
      (∀ k d, 4 * k + 3 < pixels.length →
        out.getD (4 * k + 3) d = if pixelMatchesAt pixels k target then 0
          else pixels.getD (4 * k + 3) d) ∧
      count = matchCount pixels target :=
  ⟨(scanChunks target pixels).1, (scanChunks target pixels).2,
    make_transparent_eq pixels target h,
    scanChunks_length target pixels,
    scanChunks_getD_ne3 target pixels,
    scanChunks_alpha target pixels,
    scanChunks_count target pixels⟩

/-- Witness for C2 at the spec's Scenario B input, the 2×1 buffer
`[255,255,255,255, 0,0,0,255]` with target white. -/
theorem make_transparent_correct_witness :
    ∃ out count,
      make_transparent [255, 255, 255, 255, 0, 0, 0, 255] (Color.new 255 255 255) =
        some (out, count) ∧
      out.length = ([255, 255, 255, 255, 0, 0, 0, 255] : List Nat).length ∧
      (∀ i d, i % 4 ≠ 3 →
        out.getD i d = ([255, 255, 255, 255, 0, 0, 0, 255] : List Nat).getD i d) ∧
      (∀ k d, 4 * k + 3 < ([255, 255, 255, 255, 0, 0, 0, 255] : List Nat).length →
        out.getD (4 * k + 3) d =
          if pixelMatchesAt [255, 255, 255, 255, 0, 0, 0, 255] k (Color.new 255 255 255)
          then 0
          else ([255, 255, 255, 255, 0, 0, 0, 255] : List Nat).getD (4 * k + 3) d) ∧
      count = matchCount [255, 255, 255, 255, 0, 0, 0, 255] (Color.new 255 255 255) :=
  make_transparent_correct [255, 255, 255, 255, 0, 0, 0, 255] (Color.new 255 255 255)
    (by decide)

/-- Claim C6: for every buffer whose length is not a multiple of 4,
`make_transparent` fails fast (the Rust `assert!` panic, modelled as
`none`) and produces no modified buffer; for buffers whose length is a
multiple of 4 this failure branch is unreachable (the result is always
`some`). -/
theorem make_transparent_length_guard (pixels : List Nat) (target : Color) :
    (pixels.length % 4 ≠ 0 → make_transparent pixels target = none) ∧
    (pixels.length % 4 = 0 →
      ∃ out count, make_transparent pixels target = some (out, count)) := by
  constructor
  · intro h
    simp [make_transparent, h]
  · intro h
    exact ⟨(scanChunks target pixels).1, (scanChunks target pixels).2,
      make_transparent_eq pixels target h⟩

/-- Witness for C6 at the spec's malformed 3-byte buffer. -/
theorem make_transparent_length_guard_witness :
    make_transparent [255, 255, 255] (Color.new 255 255 255) = none :=
  (make_transparent_length_guard [255, 255, 255] (Color.new 255 255 255)).1 (by decide)

/-- Counterexample to C7 as stated: the claim says a second run returns a
change-count of `0`, but `make_transparent` counts matching pixels rather
than modified bytes.  On `[255,255,255,255]` with target white the first
run returns count `1` and buffer `[255,255,255,0]`; the second run on that
output returns count `1` again (the pixel still matches on RGB), not `0`. -/
theorem rescan_count_not_zero :
    make_transparent [255, 255, 255, 255] (Color.new 255 255 255) =
        some ([255, 255, 255, 0], 1) ∧
      make_transparent [255, 255, 255, 0] (Color.new 255 255 255) =
        some ([255, 255, 255, 0], 1) ∧
      (1 : Nat) ≠ 0 := by
  refine ⟨by decide, by decide, by decide⟩

/-- Claim C7 (amended): running `make_transparent` a second time on the
output of a first run with the same target yields an identical buffer and
returns the same count as the first run (the number of RGB-matching
pixels) — the buffer, not the count, is the fixpoint; the count is `0`
only when no pixel matched. -/
theorem rescan_is_fixpoint (pixels out : List Nat) (target : Color) (count : Nat)
    (h : pixels.length % 4 = 0)
    (hrun : make_transparent pixels target = some (out, count)) :
    make_transparent out target = some (out, count) :=
  make_transparent_idem pixels out target count h hrun

/-- Witness for the amended C7 at `[255,255,255,255]`, target white. -/
theorem rescan_is_fixpoint_witness :
    make_transparent [255, 255, 255, 0] (Color.new 255 255 255) =
      some ([255, 255, 255, 0], 1) :=
  rescan_is_fixpoint [255, 255, 255, 255] [255, 255, 255, 0]
    (Color.new 255 255 255) 1 (by decide) (by decide)

/-- Claim C10: for every RGBA buffer of length a multiple of 4 and every
target color, `make_transparent` never changes the buffer's length,
returns a count at most `length / 4` equal to the number of pixels whose
RGB channels match the target, and a second application with the same
target leaves the buffer byte-for-byte identical while returning the same
count as the first. -/
theorem make_transparent_invariants (pixels : List Nat) (target : Color)
    (h : pixels.length % 4 = 0) :
    ∃ out count, make_transparent pixels target = some (out, count) ∧
      out.length = pixels.length ∧
      count ≤ pixels.length / 4 ∧
      count = matchCount pixels target ∧
      make_transparent out target = some (out, count) := by
  refine ⟨(scanChunks target pixels).1, (scanChunks target pixels).2,
    make_transparent_eq pixels target h, scanChunks_length target pixels, ?_,
    scanChunks_count target pixels, ?_⟩
  · rw [scanChunks_count]
    calc matchCount pixels target ≤ (List.range (pixels.length / 4)).length :=
          List.countP_le_length _
      _ = pixels.length / 4 := List.length_range _
  · exact make_transparent_idem pixels _ target _ h (make_transparent_eq pixels target h)

/-- Witness for C10 at the spec's Scenario B input. -/
theorem make_transparent_invariants_witness :
    ∃ out count,
      make_transparent [255, 255, 255, 255, 0, 0, 0, 255] (Color.new 255 255 255) =
        some (out, count) ∧
      out.length = ([255, 255, 255, 255, 0, 0, 0, 255] : List Nat).length ∧
      count ≤ ([255, 255, 255, 255, 0, 0, 0, 255] : List Nat).length / 4 ∧
      count = matchCount [255, 255, 255, 255, 0, 0, 0, 255] (Color.new 255 255 255) ∧
      make_transparent out (Color.new 255 255 255) = some (out, count) :=
  make_transparent_invariants [255, 255, 255, 255, 0, 0, 0, 255]
    (Color.new 255 255 255) (by decide)

end Bgclipper

namespace Bgclipper

/-! ## Claims about `process_clipboard` -/

theorem process_clipboard_skip {σ : Type} (P : Ports σ) (fp : Nat) (s s1 : σ)
    (h : P.change_count s = .ok (fp, s1)) :
    process_clipboard P fp s = ⟨.ok .Skipped, fp, s1, [.changeCount]⟩ := by
  simp [process_clipboard, h]

/-- Claim C3: if the provider's `change_count` returns a value equal to
the stored fingerprint, `process_clipboard` returns `Skipped` without
calling `get_image` or `set_image` (the call trace is exactly
`[changeCount]`) and without changing the fingerprint. -/
theorem skip_when_counter_unchanged {σ : Type} (P : Ports σ) (fp : Nat) (s s1 : σ)
    (h : P.change_count s = .ok (fp, s1)) :
    process_clipboard P fp s = ⟨.ok .Skipped, fp, s1, [.changeCount]⟩ := by
  simp [process_clipboard, h]

/-- Witness for C3: a provider whose counter equals the fingerprint `5`. -/
theorem skip_when_counter_unchanged_witness :
    process_clipboard (mports Nat.succ) 5 ⟨5, none, Color.new 255 255 255⟩ =
      ⟨.ok .Skipped, 5, ⟨5, none, Color.new 255 255 255⟩, [.changeCount]⟩ :=
  skip_when_counter_unchanged (mports Nat.succ) 5
    ⟨5, none, Color.new 255 255 255⟩ ⟨5, none, Color.new 255 255 255⟩ rfl

/-- Claim C1: for every provider whose change counter is a pure read
(`change_count` returns it without altering state) and is not changed by
`get_image` or `load_target_color` — so it changes only through
`set_image`, as for an OS pasteboard counter — if `process_clipboard`
returns `Processed`, an immediately following call with no intervening
external change returns `Skipped` without reading the image again (trace
`[changeCount]`): the image written back on the previous poll is never
reprocessed, because the post-write counter value was stored as the
fingerprint. -/
theorem processed_then_skipped {σ : Type} (P : Ports σ) (cnt : σ → Nat)
    (hcc : ∀ t, P.change_count t = .ok (cnt t, t))
    (hgi : ∀ t r t', P.get_image t = .ok (r, t') → cnt t' = cnt t)
    (hlc : ∀ t c t', P.load_target_color t = .ok (c, t') → cnt t' = cnt t)
    (fp : Nat) (s : σ) (fp' : Nat) (s' : σ) (tr : List PortCall)
    (hrun : process_clipboard P fp s = ⟨.ok .Processed, fp', s', tr⟩) :
    process_clipboard P fp' s' = ⟨.ok .Skipped, fp', s', [.changeCount]⟩ := by
  simp only [process_clipboard, hcc s] at hrun
  split at hrun
  · simp at hrun
  next h1 =>
    split at hrun
    next e heq => simp at hrun
    next s2 heq => simp at hrun
    next image s2 heq =>
      have hc2 : cnt s2 = cnt s := hgi s _ s2 heq
      split at hrun
      next e heq2 => simp at hrun
      next color s3 heq2 =>
        have hc3 : cnt s3 = cnt s2 := hlc s2 _ s3 heq2
        split at hrun
        next heq3 => simp at hrun
        next out cntN heq3 =>
          split at hrun
          next hcnt =>
            cases hrun
            exact process_clipboard_skip P (cnt s) s' s' (by rw [hcc s', hc3, hc2])
          next hcnt =>
            split at hrun
            next e heq4 => simp at hrun
            next s4 heq4 =>
              split at hrun
              next e heq5 => simp at hrun
              next new_count s5 heq5 =>
                cases hrun
                have h6 := (hcc s4).symm.trans heq5
                injection h6 with h7
                injection h7 with h8 h9
                exact process_clipboard_skip P fp' s' s' (by rw [← h9, hcc s4, h8])

/-- Witness for C1 at the test scenario: counter-bumping mock provider
holding a 1×1 white image, fresh fingerprint `0`; the first call processes
and stores post-write counter `2`, the second call skips. -/
theorem processed_then_skipped_witness :
    process_clipboard (mports Nat.succ) 2
        ⟨2, some ⟨[255, 255, 255, 0], 1, 1⟩, Color.new 255 255 255⟩ =
      ⟨.ok .Skipped, 2, ⟨2, some ⟨[255, 255, 255, 0], 1, 1⟩, Color.new 255 255 255⟩,
        [.changeCount]⟩ :=
  processed_then_skipped (mports Nat.succ) MProv.counter
    (fun _ => rfl)
    (fun t r t' h => by
      simp only [mports] at h
      injection h with h1
      injection h1 with h2 h3
      rw [h3])
    (fun t c t' h => by
      simp only [mports] at h
      injection h with h1
      injection h1 with h2 h3
      rw [h3])
    0 ⟨1, some ⟨[255, 255, 255, 255], 1, 1⟩, Color.new 255 255 255⟩ 2
    ⟨2, some ⟨[255, 255, 255, 0], 1, 1⟩, Color.new 255 255 255⟩
    [.changeCount, .getImage, .loadTargetColor,
      .setImage ⟨[255, 255, 255, 0], 1, 1⟩, .changeCount]
    (by decide)

end Bgclipper

namespace Bgclipper

/-- Claim C4: on a poll whose counter differs from the fingerprint and
whose `get_image` returns an image, `set_image` is invoked if and only if
the scanner's returned count (`make_transparent`'s match count, the
source's `changed` variable) is nonzero.  When the count is `0` the
clipboard is not written (no `setImage` in the trace) but the fingerprint
becomes the current counter and `Processed` is returned; when it is
nonzero the scanned image — same width and height, processed buffer — is
written back, the counter is re-read after the write and stored as the new
fingerprint, and `Processed` is returned. -/
theorem write_iff_scanner_matched {σ : Type} (P : Ports σ) (fp c : Nat)
    (s s1 s2 s3 : σ) (image : ImageData) (color : Color) (out : List Nat)
    (count : Nat)
    (hcc : P.change_count s = .ok (c, s1)) (hne : c ≠ fp)
    (hgi : P.get_image s1 = .ok (some image, s2))
    (hlc : P.load_target_color s2 = .ok (color, s3))
    (hmt : make_transparent image.pixels color = some (out, count)) :
    (count = 0 → process_clipboard P fp s =
        ⟨.ok .Processed, c, s3, [.changeCount, .getImage, .loadTargetColor]⟩) ∧
    (count ≠ 0 → ∀ s4 c2 s5,
        P.set_image { image with pixels := out } s3 = .ok s4 →
        P.change_count s4 = .ok (c2, s5) →
        process_clipboard P fp s =
          ⟨.ok .Processed, c2, s5,
            [.changeCount, .getImage, .loadTargetColor,
              .setImage { image with pixels := out }, .changeCount]⟩) := by
  constructor
  · intro h0
    simp [process_clipboard, hcc, hne, hgi, hlc, hmt, h0]
  · intro hn s4 c2 s5 hsi hcc2
    simp [process_clipboard, hcc, hne, hgi, hlc, hmt, hn, hsi, hcc2]

/-- Witness for C4, write branch: a 1×1 white image on the mock provider;
one pixel matches, the processed image is written back and the post-write
counter `2` becomes the fingerprint. -/
theorem write_iff_scanner_matched_witness :
    process_clipboard (mports Nat.succ) 0
        ⟨1, some ⟨[255, 255, 255, 255], 1, 1⟩, Color.new 255 255 255⟩ =
      ⟨.ok .Processed, 2,
        ⟨2, some ⟨[255, 255, 255, 0], 1, 1⟩, Color.new 255 255 255⟩,
        [.changeCount, .getImage, .loadTargetColor,
          .setImage ⟨[255, 255, 255, 0], 1, 1⟩, .changeCount]⟩ :=
  (write_iff_scanner_matched (mports Nat.succ) 0 1
      ⟨1, some ⟨[255, 255, 255, 255], 1, 1⟩, Color.new 255 255 255⟩
      ⟨1, some ⟨[255, 255, 255, 255], 1, 1⟩, Color.new 255 255 255⟩
      ⟨1, some ⟨[255, 255, 255, 255], 1, 1⟩, Color.new 255 255 255⟩
      ⟨1, some ⟨[255, 255, 255, 255], 1, 1⟩, Color.new 255 255 255⟩
      ⟨[255, 255, 255, 255], 1, 1⟩ (Color.new 255 255 255) [255, 255, 255, 0] 1
      rfl (by decide) rfl rfl (by decide)).2 (by decide)
    ⟨2, some ⟨[255, 255, 255, 0], 1, 1⟩, Color.new 255 255 255⟩ 2
    ⟨2, some ⟨[255, 255, 255, 0], 1, 1⟩, Color.new 255 255 255⟩ rfl rfl

/-- Claim C5: if any collaborator call made during `process_clipboard`
fails — the `change_count` read, `get_image`, the config load, `set_image`,
or the `change_count` re-read after a successful write — the call returns
an error (the mapped descriptive message, bubbled up verbatim) and the
stored fingerprint is exactly what it was before the call.  The first
conjunct states fingerprint preservation for every error outcome; the
remaining five cover each failing collaborator call. -/
theorem errors_preserve_fingerprint {σ : Type} (P : Ports σ) (fp : Nat) (s : σ) :
    (∀ e, (process_clipboard P fp s).result = .err e →
      (process_clipboard P fp s).fp = fp) ∧
    (∀ e, P.change_count s = .error e →
      process_clipboard P fp s =
        ⟨.err ("failed to read change count: " ++ e), fp, s, [.changeCount]⟩) ∧
    (∀ c s1 e, P.change_count s = .ok (c, s1) → c ≠ fp →
      P.get_image s1 = .error e →
      process_clipboard P fp s =
        ⟨.err ("failed to read clipboard: " ++ e), fp, s1, [.changeCount, .getImage]⟩) ∧
    (∀ c s1 image s2 e, P.change_count s = .ok (c, s1) → c ≠ fp →
      P.get_image s1 = .ok (some image, s2) →
      P.load_target_color s2 = .error e →
      process_clipboard P fp s =
        ⟨.err ("failed to load config: " ++ e), fp, s2,
          [.changeCount, .getImage, .loadTargetColor]⟩) ∧
    (∀ c s1 image s2 color s3 out count e, P.change_count s = .ok (c, s1) → c ≠ fp →
      P.get_image s1 = .ok (some image, s2) →
      P.load_target_color s2 = .ok (color, s3) →
      make_transparent image.pixels color = some (out, count) → count ≠ 0 →
      P.set_image { image with pixels := out } s3 = .error e →
      process_clipboard P fp s =
        ⟨.err ("failed to write clipboard: " ++ e), fp, s3,
          [.changeCount, .getImage, .loadTargetColor,
            .setImage { image with pixels := out }]⟩) ∧
    (∀ c s1 image s2 color s3 out count s4 e, P.change_count s = .ok (c, s1) → c ≠ fp →
      P.get_image s1 = .ok (some image, s2) →
      P.load_target_color s2 = .ok (color, s3) →
      make_transparent image.pixels color = some (out, count) → count ≠ 0 →
      P.set_image { image with pixels := out } s3 = .ok s4 →
      P.change_count s4 = .error e →
      process_clipboard P fp s =
        ⟨.err ("failed to read change count after write: " ++ e), fp, s4,
          [.changeCount, .getImage, .loadTargetColor,
            .setImage { image with pixels := out }, .changeCount]⟩) := by
  refine ⟨?_, ?_, ?_, ?_, ?_, ?_⟩
  · intro e
    unfold process_clipboard
    repeat' split
    all_goals simp
  · intro e h
    simp [process_clipboard, h]
  · intro c s1 e h1 h2 h3
    simp [process_clipboard, h1, h2, h3]
  · intro c s1 image s2 e h1 h2 h3 h4
    simp [process_clipboard, h1, h2, h3, h4]
  · intro c s1 image s2 color s3 out count e h1 h2 h3 h4 h5 h6 h7
    simp [process_clipboard, h1, h2, h3, h4, h5, h6, h7]
  · intro c s1 image s2 color s3 out count s4 e h1 h2 h3 h4 h5 h6 h7 h8
    simp [process_clipboard, h1, h2, h3, h4, h5, h6, h7, h8]

/-- Witness for C5: a provider whose `change_count` fails; the poll
surfaces the mapped error and the fingerprint `7` is untouched. -/
theorem errors_preserve_fingerprint_witness :
    process_clipboard failPorts 7 () =
      ⟨.err ("failed to read change count: " ++ "boom"), 7, (), [.changeCount]⟩ :=
  (errors_preserve_fingerprint failPorts 7 ()).2.1 "boom" rfl

/-- Claim C8: on a poll whose counter differs from the stored fingerprint,
if `get_image` reports no image present, `process_clipboard` sets the
fingerprint to the current counter value and returns `NoImage` (first
conjunct); consequently, for a provider whose counter is a pure read and
is unchanged by `get_image`, an immediately following call with an
unchanged provider returns `Skipped` without error (second conjunct). -/
theorem no_image_fingerprinted {σ : Type} (P : Ports σ) (fp : Nat) (s : σ) :
    (∀ c s1 s2, P.change_count s = .ok (c, s1) → c ≠ fp →
      P.get_image s1 = .ok (none, s2) →
      process_clipboard P fp s = ⟨.ok .NoImage, c, s2, [.changeCount, .getImage]⟩) ∧
    (∀ cnt : σ → Nat, (∀ t, P.change_count t = .ok (cnt t, t)) →
      (∀ t r t', P.get_image t = .ok (r, t') → cnt t' = cnt t) →
      ∀ fp' s' tr, process_clipboard P fp s = ⟨.ok .NoImage, fp', s', tr⟩ →
        process_clipboard P fp' s' = ⟨.ok .Skipped, fp', s', [.changeCount]⟩) := by
  constructor
  · intro c s1 s2 h1 h2 h3
    simp [process_clipboard, h1, h2, h3]
  · intro cnt hcc hgi fp' s' tr hrun
    simp only [process_clipboard, hcc s] at hrun
    split at hrun
    · simp at hrun
    next h1 =>
      split at hrun
      next e heq => simp at hrun
      next s2 heq =>
        cases hrun
        exact process_clipboard_skip P (cnt s) s' s'
          (by rw [hcc s', hgi s none s' heq])
      next image s2 heq =>
        repeat' split at hrun
        all_goals simp at hrun

/-- Witness for C8: empty clipboard at counter `3`, fingerprint `0`. -/
theorem no_image_fingerprinted_witness :
    process_clipboard (mports Nat.succ) 0 ⟨3, none, Color.new 255 255 255⟩ =
      ⟨.ok .NoImage, 3, ⟨3, none, Color.new 255 255 255⟩, [.changeCount, .getImage]⟩ :=
  (no_image_fingerprinted (mports Nat.succ) 0 ⟨3, none, Color.new 255 255 255⟩).1
    3 ⟨3, none, Color.new 255 255 255⟩ ⟨3, none, Color.new 255 255 255⟩
    rfl (by decide) rfl

/-- Counterexample to C9 as stated: `ClipboardService::new` initializes
the fingerprint to `0`, which is not a reserved sentinel — a provider
legitimately reporting change counter `0` collides with it.  On a freshly
constructed service (`fp = initial_last_change_count = 0`) over a provider
whose counter is `0` and which holds an image, the very first call returns
`Skipped`: the content is treated as already seen and is never read. -/
theorem first_call_skipped_at_counter_zero :
    process_clipboard (mports Nat.succ) initial_last_change_count
        ⟨0, some ⟨[255, 255, 255, 255], 1, 1⟩, Color.new 255 255 255⟩ =
      ⟨.ok .Skipped, 0,
        ⟨0, some ⟨[255, 255, 255, 255], 1, 1⟩, Color.new 255 255 255⟩,
        [.changeCount]⟩ := by
  decide

/-- Claim C9 (amended): a freshly constructed orchestrator holds the
fingerprint `0`; for every provider whose reported counter is nonzero, the
very first call never returns `Skipped` — the content is treated as new
(read, processed, `NoImage`, or a surfaced error), never as already seen.
A provider reporting counter `0` is the one exception: it collides with
the initial value and is skipped. -/
theorem first_call_not_skipped_of_nonzero {σ : Type} (P : Ports σ) (s s1 : σ)
    (c : Nat) (hcc : P.change_count s = .ok (c, s1)) (hc : c ≠ 0) :
    (process_clipboard P initial_last_change_count s).result ≠ .ok .Skipped := by
  simp only [process_clipboard, initial_last_change_count, hcc]
  rw [if_neg hc]
  repeat' split
  all_goals simp

/-- Witness for the amended C9: fresh service, provider counter `1`. -/
theorem first_call_not_skipped_of_nonzero_witness :
    (process_clipboard (mports Nat.succ) initial_last_change_count
        ⟨1, some ⟨[255, 255, 255, 255], 1, 1⟩, Color.new 255 255 255⟩).result ≠
      .ok .Skipped :=
  first_call_not_skipped_of_nonzero (mports Nat.succ)
    ⟨1, some ⟨[255, 255, 255, 255], 1, 1⟩, Color.new 255 255 255⟩
    ⟨1, some ⟨[255, 255, 255, 255], 1, 1⟩, Color.new 255 255 255⟩
    1 rfl (by decide)

end Bgclipper
